import Mathlib

/-!
Shallow embedding of the `ngo_chatbot` repository: the terminal chatbot in
`src/main.py` and the tool wrappers in `src/tools/language_tool.py` and
`src/tools/pdf_tool.py`.

External effects are modelled as explicit oracles passed to the embedded
functions: the Groq HTTP endpoint becomes a function from the attempt index
to the attempt's outcome (`ApiOutcome`), the `langdetect`, `deep_translator`
and `pdfplumber` library calls become `Option`/`Except`-valued functions.
Everything else follows the Python source line by line; Python `if s:`
truthiness on a string is embedded as `s ≠ ""`, and a Python function that
can let an exception escape is embedded as `Except`-valued, `Except.error`
standing for the escaped exception.
-/

namespace NgoChatbot

/-- Constant `MAX_MEMORY_SIZE` (src/main.py line 60). -/
def MAX_MEMORY_SIZE : Nat := 3

/-- Constant `REQUEST_TIMEOUT` (src/main.py line 61), seconds per attempt. -/
def REQUEST_TIMEOUT : Nat := 30

/-- Constant `MAX_RETRIES` (src/main.py line 62). -/
def MAX_RETRIES : Nat := 3

/-- Constant `GROQ_API_KEY` (src/main.py line 46). -/
def GROQ_API_KEY : String := "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"

/-- Constant `GROQ_MODEL` (src/main.py line 47). -/
def GROQ_MODEL : String := "llama-3.1-8b-instant"

/-- Role of a chat message in the OpenAI-compatible wire format. -/
inductive Role where
  | system
  | user
  | assistant
deriving DecidableEq, Repr

/-- One role/content message dictionary, as built throughout src/main.py. -/
structure Message where
  role : Role
  content : String
deriving DecidableEq, Repr

/-- One stored exchange dictionary `\x7b"user": ..., "assistant": ...\x7d`
(src/main.py lines 110-113). -/
structure Exchange where
  user : String
  assistant : String
deriving DecidableEq, Repr

/-- State of class `Scratchpad` (src/main.py lines 69-98): the `notes` list. -/
structure Scratchpad where
  notes : List String
deriving DecidableEq, Repr

/-- Method `Scratchpad.add_note` (src/main.py lines 75-78): appends the
stripped note, but only when the stripped note is non-empty (Python string
truthiness of `note.strip()`). -/
def Scratchpad.add_note (s : Scratchpad) (note : String) : Scratchpad :=
  if note.trim = "" then s else ⟨s.notes ++ [note.trim]⟩

/-- Method `Scratchpad.clear_notes` (src/main.py lines 92-94). -/
def Scratchpad.clear_notes (_ : Scratchpad) : Scratchpad :=
  ⟨[]⟩

/-- Method `Scratchpad.get_note_count` (src/main.py lines 96-98). -/
def Scratchpad.get_note_count (s : Scratchpad) : Nat :=
  s.notes.length

/-- State of class `ChatMemory` (src/main.py lines 101-130): a
`collections.deque` of exchanges with a `maxlen`, plus the recorded bound. -/
structure ChatMemory where
  messages : List Exchange
  max_size : Nat
deriving DecidableEq, Repr

/-- Appending to a `collections.deque(maxlen := maxlen)`: the element is
appended on the right and, past capacity, elements fall off the left
(the oldest ones first). -/
def dequeAppend (maxlen : Nat) (xs : List α) (x : α) : List α :=
  (xs ++ [x]).drop ((xs ++ [x]).length - maxlen)

/-- Constructor `ChatMemory.__init__` (src/main.py lines 104-106). -/
def ChatMemory.init (max_size : Nat := MAX_MEMORY_SIZE) : ChatMemory :=
  ⟨[], max_size⟩

/-- Method `ChatMemory.add_exchange` (src/main.py lines 108-113):
`self.messages.append(...)` on the bounded deque. -/
def ChatMemory.add_exchange (m : ChatMemory) (user_message assistant_message : String) :
    ChatMemory :=
  ⟨dequeAppend m.max_size m.messages ⟨user_message, assistant_message⟩, m.max_size⟩

/-- Method `ChatMemory.get_context_messages` (src/main.py lines 115-121):
each stored exchange becomes a user message followed by an assistant
message, in stored order. -/
def ChatMemory.get_context_messages (m : ChatMemory) : List Message :=
  m.messages.flatMap fun e => [⟨Role.user, e.user⟩, ⟨Role.assistant, e.assistant⟩]

/-- Method `ChatMemory.clear_memory` (src/main.py lines 123-125). -/
def ChatMemory.clear_memory (m : ChatMemory) : ChatMemory :=
  ⟨[], m.max_size⟩

/-- Memory state after a sequence of recorded exchanges, starting from a
fresh session (`TerminalChatbot.__init__` builds `ChatMemory()` with the
default bound). -/
def runMemory (history : List Exchange) : ChatMemory :=
  history.foldl (fun m e => m.add_exchange e.user e.assistant) (ChatMemory.init MAX_MEMORY_SIZE)

/-- Field `TerminalChatbot.system_prompt` (src/main.py lines 146-382): a
system-role message carrying the long static DGCA policy directive. The
directive text is abbreviated to its opening sentence here; no claim
depends on its wording, only on the message and its role. -/
def system_prompt : Message :=
  ⟨Role.system,
   "You must never bypass or ignore regulatory steps and must always guide the user to ensure full compliance and readiness for DGCA inspections, audits, license renewals, and safety checks."⟩

/-- The `messages` field of the JSON payload built by
`TerminalChatbot.call_groq_api` (src/main.py line 404):
`[self.system_prompt] + messages`. -/
def payload_messages (messages : List Message) : List Message :=
  system_prompt :: messages

/-- The network outcome of one `requests.post` attempt inside
`TerminalChatbot.call_groq_api` (src/main.py lines 410-439), split by the
`except` clause that actually handles it:

* `ok content` — a 200 response whose body decodes and yields
  `data["choices"][0]["message"]["content"]`;
* `keyError err` — a 200 response whose decoded body lacks one of the
  subscripted keys: the `KeyError` is caught by the
  `except (KeyError, json.JSONDecodeError)` clause (line 438) and turned
  into an immediate return;
* `decodeError err` — a 200 response whose body fails to decode:
  `response.json()` raises `requests.exceptions.JSONDecodeError`, a
  subclass of `RequestException`, so the earlier
  `except requests.exceptions.RequestException` clause (line 433) catches
  it first and it is retried like a network error (the
  `json.JSONDecodeError` arm of line 438 is unreachable for it);
* `shapeError err` — a 200 response whose decoded body has the wrong shape
  without a missing key, e.g. an empty `choices` list (`IndexError`) or a
  non-dict field (`TypeError`): no clause catches these, so the exception
  escapes `call_groq_api`;
* `httpError status body` — a non-200 status (retried, line 423);
* `timeout` — `requests.exceptions.Timeout` (retried, line 428);
* `netError err` — another `requests.exceptions.RequestException`
  (retried, line 433). -/
inductive ApiOutcome where
  | ok (content : String)
  | keyError (err : String)
  | decodeError (err : String)
  | shapeError (err : String)
  | httpError (status : Nat) (body : String)
  | timeout
  | netError (err : String)
deriving DecidableEq, Repr

/-- An outcome on which the loop in `call_groq_api` retries when attempts
remain: non-200 status, timeout, network error — and a JSON decode failure,
because the `RequestException` clause catches it (see `ApiOutcome`). -/
def ApiOutcome.isTransient : ApiOutcome → Bool
  | .httpError _ _ => true
  | .timeout => true
  | .netError _ => true
  | .decodeError _ => true
  | .ok _ => false
  | .keyError _ => false
  | .shapeError _ => false

/-- The failure string the loop returns for a transient outcome when it
occurs on the last attempt (src/main.py lines 423-436); `none` for the
outcomes the retry clauses do not handle. A decode failure is surfaced by
the `RequestException` clause, so its string reads `❌ Network error:`. -/
def transientErrorString : ApiOutcome → Option String
  | .httpError status body => some ("❌ API Error " ++ toString status ++ ": " ++ body)
  | .timeout => some "❌ Request timed out. Please try again."
  | .netError e => some ("❌ Network error: " ++ e)
  | .decodeError e => some ("❌ Network error: " ++ e)
  | .ok _ => none
  | .keyError _ => none
  | .shapeError _ => none

/-- The `for attempt in range(MAX_RETRIES)` loop of `call_groq_api`
(src/main.py lines 410-441), with the remaining iterations as fuel. Returns
what the loop does — `Except.ok` a returned string, `Except.error` an
escaped exception — together with the number of attempts performed. A
well-formed 200 body returns its content; a missing key returns the
`Invalid API response format` string at once; a wrong-shaped body raises
`IndexError`/`TypeError`, which no clause catches, so it escapes; a
transient failure (non-200, timeout, network error, JSON decode failure)
returns its failure string on the last attempt
(`attempt == MAX_RETRIES - 1`) and otherwise retries. When the loop ends
without returning, the function falls through to the final return
(src/main.py line 441). -/
def runAttempts (outcomes : Nat → ApiOutcome) : Nat → Nat → Except String String × Nat
  | 0, attempt => (Except.ok "❌ Failed to get response after multiple attempts.", attempt)
  | fuel + 1, attempt =>
    match outcomes attempt with
    | ApiOutcome.ok c => (Except.ok c, attempt + 1)
    | ApiOutcome.keyError e =>
      (Except.ok ("❌ Invalid API response format: " ++ e), attempt + 1)
    | ApiOutcome.shapeError e => (Except.error e, attempt + 1)
    | ApiOutcome.decodeError e =>
      if attempt = MAX_RETRIES - 1 then
        (Except.ok ("❌ Network error: " ++ e), attempt + 1)
      else
        runAttempts outcomes fuel (attempt + 1)
    | ApiOutcome.httpError status body =>
      if attempt = MAX_RETRIES - 1 then
        (Except.ok ("❌ API Error " ++ toString status ++ ": " ++ body), attempt + 1)
      else
        runAttempts outcomes fuel (attempt + 1)
    | ApiOutcome.timeout =>
      if attempt = MAX_RETRIES - 1 then
        (Except.ok "❌ Request timed out. Please try again.", attempt + 1)
      else
        runAttempts outcomes fuel (attempt + 1)
    | ApiOutcome.netError e =>
      if attempt = MAX_RETRIES - 1 then
        (Except.ok ("❌ Network error: " ++ e), attempt + 1)
      else
        runAttempts outcomes fuel (attempt + 1)

/-- Method `TerminalChatbot.call_groq_api` (src/main.py lines 384-441), as a
value: `Except.ok` the returned string, `Except.error` an exception that
escapes the function (an uncaught `IndexError`/`TypeError` from a
wrong-shaped 200 body). The payload assembly of line 404 is embedded as
`payload_messages`; the network behaviour of the attempts is abstracted by
the `outcomes` oracle, so the result depends only on it. The guard of line
394 compares the configured key against the placeholder. -/
def call_groq_api (outcomes : Nat → ApiOutcome) : Except String String :=
  if GROQ_API_KEY = "YOUR_GROQ_API_KEY_HERE" then
    Except.ok "⚠️  Please configure your Groq API key in the GROQ_API_KEY variable."
  else
    (runAttempts outcomes MAX_RETRIES 0).1

/-- Number of `requests.post` attempts `call_groq_api` performs. -/
def call_groq_api_attempts (outcomes : Nat → ApiOutcome) : Nat :=
  if GROQ_API_KEY = "YOUR_GROQ_API_KEY_HERE" then 0
  else
    (runAttempts outcomes MAX_RETRIES 0).2

/-- The full message sequence submitted to inference for one turn:
`get_llm_response` (src/main.py lines 500-505) appends the current user
input to the memory context, and `call_groq_api` (line 404) prepends the
system prompt. -/
def assembled_frame (mem : ChatMemory) (user_input : String) : List Message :=
  payload_messages (mem.get_context_messages ++ [⟨Role.user, user_input⟩])

/-- Method `TerminalChatbot.get_llm_response` (src/main.py lines 490-514):
returns what the method does — `Except.ok` the reply, or `Except.error` an
exception propagating out of `call_groq_api` (the method itself catches
nothing, so on that path no exchange is recorded) — together with the
memory afterwards. `if response:` on a string is `response ≠ ""`, and
`response or "..."` yields the fallback exactly when `response` is empty. -/
def get_llm_response (outcomes : Nat → ApiOutcome) (mem : ChatMemory) (user_input : String) :
    Except String String × ChatMemory :=
  match call_groq_api outcomes with
  | Except.error e => (Except.error e, mem)
  | Except.ok response =>
    if response = "" then
      (Except.ok "❌ Failed to get response from LLM.", mem)
    else
      (Except.ok response, mem.add_exchange user_input response)

/-- Function `detect_language` (src/tools/language_tool.py lines 4-8): the
`langdetect.detect` call is the oracle, `none` standing for a raised
exception. -/
def detect_language (langdetect : String → Option String) (text : String) : String :=
  match langdetect text with
  | some lang => lang
  | none => "en"

/-- Function `translate_text` (src/tools/language_tool.py lines 10-17): the
`GoogleTranslator(source, target).translate(text)` call is the oracle
`translator source target text`, `none` standing for a raised exception. -/
def translate_text (translator : String → String → String → Option String)
    (text : String) (target_lang : String) (reverse : Bool := false) : String :=
  match (if reverse then translator "en" target_lang text
         else translator target_lang "en" text) with
  | some translated => translated
  | none => text

/-- Function `extract_text_from_pdf` (src/tools/pdf_tool.py lines 4-12): the
`pdfplumber.open` call together with the page iteration is the oracle,
yielding either the list of per-page `page.extract_text()` results (`none`
standing for a page with no text, mapped to `""` by `or ""`) or a raised
exception with its message. -/
def extract_text_from_pdf (pdfplumber_open : List Nat → Except String (List (Option String)))
    (file_bytes : List Nat) : String :=
  match pdfplumber_open file_bytes with
  | Except.ok pages => (pages.foldl (fun text page => text ++ page.getD "") "").trim
  | Except.error e => "Error reading PDF: " ++ e

/-! ### Helper lemmas -/

lemma add_exchange_messages (m : ChatMemory) (u a : String) :
    (m.add_exchange u a).messages
      = (m.messages ++ [(⟨u, a⟩ : Exchange)]).drop
          ((m.messages ++ [(⟨u, a⟩ : Exchange)]).length - m.max_size) :=
  rfl

lemma add_exchange_max_size (m : ChatMemory) (u a : String) :
    (m.add_exchange u a).max_size = m.max_size :=
  rfl

lemma dequeAppend_length_le (k : Nat) (xs : List α) (x : α) :
    (dequeAppend k xs x).length ≤ k := by
  simp only [dequeAppend, List.length_drop]
  omega

lemma foldl_add_exchange_messages :
    ∀ (l : List Exchange) (m : ChatMemory),
      (l.foldl (fun acc e => acc.add_exchange e.user e.assistant) m).messages
        = l.foldl (dequeAppend m.max_size) m.messages
  | [], _ => rfl
  | e :: l, m => by
    rw [List.foldl_cons, List.foldl_cons,
      foldl_add_exchange_messages l (m.add_exchange e.user e.assistant)]
    rfl

lemma foldl_dequeAppend (k : Nat) :
    ∀ (l acc : List α), acc.length ≤ k →
      l.foldl (dequeAppend k) acc = (acc ++ l).drop ((acc ++ l).length - k)
  | [], acc, h => by
    simp [Nat.sub_eq_zero_of_le h]
  | x :: l, acc, h => by
    rw [List.foldl_cons, foldl_dequeAppend k l (dequeAppend k acc x) (dequeAppend_length_le k acc x)]
    unfold dequeAppend
    by_cases hc : acc.length < k
    · have h0 : (acc ++ [x]).length - k = 0 := by
        simp only [List.length_append, List.length_cons, List.length_nil]
        omega
      rw [h0, List.drop_zero, ← List.append_cons]
    · have h1 : (acc ++ [x]).length - k = 1 := by
        simp only [List.length_append, List.length_cons, List.length_nil]
        omega
      rw [h1, ← List.drop_append_of_le_length (by simp : 1 ≤ (acc ++ [x]).length),
        List.drop_drop, ← List.append_cons]
      congr 1
      simp only [List.length_drop, List.length_append, List.length_cons, List.length_nil]
      omega

lemma runMemory_messages (history : List Exchange) :
    (runMemory history).messages = history.drop (history.length - MAX_MEMORY_SIZE) := by
  unfold runMemory
  rw [foldl_add_exchange_messages history (ChatMemory.init MAX_MEMORY_SIZE)]
  simpa using foldl_dequeAppend MAX_MEMORY_SIZE history ([] : List Exchange) (by simp)

lemma flatMap_pair_length (l : List Exchange) :
    (l.flatMap fun e => [(⟨Role.user, e.user⟩ : Message), ⟨Role.assistant, e.assistant⟩]).length
      = 2 * l.length := by
  induction l with
  | nil => rfl
  | cons e l ih =>
    simp only [List.flatMap_cons, List.length_append, List.length_cons, ih]
    simp
    omega

lemma flatMap_pair_no_system (l : List Exchange) :
    (l.flatMap fun e => [(⟨Role.user, e.user⟩ : Message), ⟨Role.assistant, e.assistant⟩]).countP
      (fun msg => msg.role == Role.system) = 0 := by
  induction l with
  | nil => rfl
  | cons e l ih =>
    simp [List.countP_append, List.countP_cons, ih]

lemma flatMap_pair_filter_system (l : List Exchange) :
    (l.flatMap fun e => [(⟨Role.user, e.user⟩ : Message), ⟨Role.assistant, e.assistant⟩]).filter
      (fun msg => msg.role == Role.system) = [] := by
  induction l with
  | nil => rfl
  | cons e l ih =>
    simp [List.filter_append, ih]

lemma call_groq_api_eq (outcomes : Nat → ApiOutcome) :
    call_groq_api outcomes = (runAttempts outcomes MAX_RETRIES 0).1 := by
  unfold call_groq_api
  rw [if_neg (by decide)]

lemma call_groq_api_attempts_eq (outcomes : Nat → ApiOutcome) :
    call_groq_api_attempts outcomes = (runAttempts outcomes MAX_RETRIES 0).2 := by
  unfold call_groq_api_attempts
  rw [if_neg (by decide)]

lemma runAttempts_snd_le (outcomes : Nat → ApiOutcome) :
    ∀ (fuel attempt : Nat), (runAttempts outcomes fuel attempt).2 ≤ attempt + fuel
  | 0, attempt => by simp [runAttempts]
  | fuel + 1, attempt => by
    have ih := runAttempts_snd_le outcomes fuel (attempt + 1)
    cases h : outcomes attempt <;> simp [runAttempts, h] <;> try split
    all_goals omega

lemma runAttempts_ok_of_no_shape (outcomes : Nat → ApiOutcome) :
    ∀ (fuel attempt : Nat),
      (∀ i, attempt ≤ i → i < attempt + fuel → ∀ e, outcomes i ≠ ApiOutcome.shapeError e) →
      ∃ s, (runAttempts outcomes fuel attempt).1 = Except.ok s
  | 0, _, _ => ⟨"❌ Failed to get response after multiple attempts.", rfl⟩
  | fuel + 1, attempt, h => by
    have ih : ∀ i, attempt + 1 ≤ i → i < attempt + 1 + fuel →
        ∀ e, outcomes i ≠ ApiOutcome.shapeError e := by
      intro i h1 h2 e
      exact h i (by omega) (by omega) e
    cases ho : outcomes attempt with
    | ok c => exact ⟨c, by simp [runAttempts, ho]⟩
    | keyError e => exact ⟨"❌ Invalid API response format: " ++ e, by simp [runAttempts, ho]⟩
    | shapeError e => exact absurd ho (h attempt (Nat.le_refl _) (by omega) e)
    | decodeError e =>
      by_cases hl : attempt = MAX_RETRIES - 1
      · subst hl
        exact ⟨"❌ Network error: " ++ e, by simp [runAttempts, ho]⟩
      · simpa [runAttempts, ho, hl] using
          runAttempts_ok_of_no_shape outcomes fuel (attempt + 1) ih
    | httpError status body =>
      by_cases hl : attempt = MAX_RETRIES - 1
      · subst hl
        exact ⟨"❌ API Error " ++ toString status ++ ": " ++ body, by simp [runAttempts, ho]⟩
      · simpa [runAttempts, ho, hl] using
          runAttempts_ok_of_no_shape outcomes fuel (attempt + 1) ih
    | timeout =>
      by_cases hl : attempt = MAX_RETRIES - 1
      · subst hl
        exact ⟨"❌ Request timed out. Please try again.", by simp [runAttempts, ho]⟩
      · simpa [runAttempts, ho, hl] using
          runAttempts_ok_of_no_shape outcomes fuel (attempt + 1) ih
    | netError e =>
      by_cases hl : attempt = MAX_RETRIES - 1
      · subst hl
        exact ⟨"❌ Network error: " ++ e, by simp [runAttempts, ho]⟩
      · simpa [runAttempts, ho, hl] using
          runAttempts_ok_of_no_shape outcomes fuel (attempt + 1) ih

/-! ### Claims -/

/-- C1 counterexample: after 4 ordinary turns from a fresh session the stored
conversation history yields 6 context messages, not 2·4 = 8 — the bounded
deque has already evicted the first exchange. -/
theorem C1_counterexample :
    (runMemory [⟨"u1", "a1"⟩, ⟨"u2", "a2"⟩, ⟨"u3", "a3"⟩,
      ⟨"u4", "a4"⟩]).get_context_messages.length = 6
    ∧ ¬ ((6 : Nat) = 2 * 4) :=
  ⟨rfl, by decide⟩

/-- C1 (amended): after N ordinary turns from a fresh session the stored
conversation history contains exactly 2·min(N, MAX_MEMORY_SIZE) messages —
one user and one assistant message per retained turn, in insertion order,
for the most recent min(N, 3) turns; `get_context_messages` yields exactly
that record. -/
theorem C1_amended_window (history : List Exchange) :
    (runMemory history).get_context_messages.length
      = 2 * min history.length MAX_MEMORY_SIZE
    ∧ (runMemory history).get_context_messages
      = (history.drop (history.length - MAX_MEMORY_SIZE)).flatMap
          (fun e => [⟨Role.user, e.user⟩, ⟨Role.assistant, e.assistant⟩]) := by
  have hm := runMemory_messages history
  unfold ChatMemory.get_context_messages
  rw [hm]
  refine ⟨?_, rfl⟩
  rw [flatMap_pair_length, List.length_drop]
  have h3 : MAX_MEMORY_SIZE = 3 := rfl
  omega

/-- C2: for every memory state and user input, the assembled frame submitted
to inference contains exactly one system-role message — the system prompt,
placed first — and the current user utterance is its final message (hence
the final user-role message). -/
theorem C2_single_system_message (mem : ChatMemory) (user_input : String) :
    (assembled_frame mem user_input).countP (fun msg => msg.role == Role.system) = 1
    ∧ (assembled_frame mem user_input).filter (fun msg => msg.role == Role.system)
        = [system_prompt]
    ∧ (assembled_frame mem user_input).head? = some system_prompt
    ∧ (assembled_frame mem user_input).getLast? = some ⟨Role.user, user_input⟩ := by
  unfold assembled_frame payload_messages
  refine ⟨?_, ?_, rfl, ?_⟩
  · simp [List.countP_cons, List.countP_append, ChatMemory.get_context_messages,
      flatMap_pair_no_system, system_prompt]
  · simp [List.filter_append, ChatMemory.get_context_messages,
      flatMap_pair_filter_system, system_prompt]
  · rw [← List.cons_append, List.getLast?_concat]

/-- C3: ChatMemory never holds more than `max_size` (default
MAX_MEMORY_SIZE = 3) exchanges; after any sequence of turns it holds exactly
the most recent min(N, 3) exchanges (oldest evicted first), so the context
sent to inference contains at most 3 exchange pairs, i.e. 6 messages. -/
theorem C3_memory_bounded (history : List Exchange) :
    (runMemory history).messages.length ≤ MAX_MEMORY_SIZE
    ∧ (runMemory history).messages = history.drop (history.length - MAX_MEMORY_SIZE)
    ∧ (runMemory history).get_context_messages.length ≤ 2 * MAX_MEMORY_SIZE := by
  have hm := runMemory_messages history
  refine ⟨?_, hm, ?_⟩
  · rw [hm, List.length_drop]
    have h3 : MAX_MEMORY_SIZE = 3 := rfl
    omega
  · unfold ChatMemory.get_context_messages
    rw [hm, flatMap_pair_length, List.length_drop]
    have h3 : MAX_MEMORY_SIZE = 3 := rfl
    omega

/-- C4 counterexample: a JSON decode failure is NOT returned immediately
without retry. `response.json()` raises `requests.exceptions.JSONDecodeError`,
a `RequestException` subclass, so the retry clause at src/main.py line 433
catches it before the `except (KeyError, json.JSONDecodeError)` clause:
with every attempt failing to decode, the call performs all 3 attempts,
not 1, and returns the network-error string, not the
`Invalid API response format` string. -/
theorem C4_counterexample :
    call_groq_api_attempts (fun _ => ApiOutcome.decodeError "Expecting value") = 3
    ∧ call_groq_api (fun _ => ApiOutcome.decodeError "Expecting value")
        = Except.ok "❌ Network error: Expecting value"
    ∧ ¬ (call_groq_api_attempts (fun _ => ApiOutcome.decodeError "Expecting value") = 1)
    ∧ ¬ (call_groq_api (fun _ => ApiOutcome.decodeError "Expecting value")
        = Except.ok "❌ Invalid API response format: Expecting value") := by
  refine ⟨rfl, rfl, by decide, ?_⟩
  intro hcontra
  rw [show call_groq_api (fun _ => ApiOutcome.decodeError "Expecting value")
      = Except.ok "❌ Network error: Expecting value" from rfl] at hcontra
  exact absurd (Except.ok.inj hcontra) (by decide)

/-- C4 (amended): `call_groq_api` performs at most MAX_RETRIES = 3 attempts;
transient failures — non-200 status, timeout, network error, and JSON
decode failures (caught by the earlier `RequestException` clause) — are
retried, and when every attempt fails transiently the final attempt's
`❌`-prefixed failure string is returned after exactly 3 attempts rather
than raised; a missing-key response body (`KeyError`) is returned at once
as a failure string with no retry — after exactly 1 attempt on the first
attempt, after exactly 2 following a transient first attempt; an
all-decode-failure run ends in the network-error string after all 3
attempts. -/
theorem C4_amended_retry_policy (outcomes : Nat → ApiOutcome) :
    call_groq_api_attempts outcomes ≤ MAX_RETRIES
    ∧ (∀ s, (outcomes 0).isTransient = true → (outcomes 1).isTransient = true →
        transientErrorString (outcomes 2) = some s →
        call_groq_api outcomes = Except.ok s
        ∧ call_groq_api_attempts outcomes = MAX_RETRIES)
    ∧ (∀ e, outcomes 0 = ApiOutcome.keyError e →
        call_groq_api outcomes = Except.ok ("❌ Invalid API response format: " ++ e)
        ∧ call_groq_api_attempts outcomes = 1)
    ∧ (∀ e, (outcomes 0).isTransient = true → outcomes 1 = ApiOutcome.keyError e →
        call_groq_api outcomes = Except.ok ("❌ Invalid API response format: " ++ e)
        ∧ call_groq_api_attempts outcomes = 2)
    ∧ (∀ e, outcomes 0 = ApiOutcome.decodeError e → outcomes 1 = ApiOutcome.decodeError e →
        outcomes 2 = ApiOutcome.decodeError e →
        call_groq_api outcomes = Except.ok ("❌ Network error: " ++ e)
        ∧ call_groq_api_attempts outcomes = MAX_RETRIES) := by
  refine ⟨?_, ?_, ?_, ?_, ?_⟩
  · rw [call_groq_api_attempts_eq]
    simpa using runAttempts_snd_le outcomes MAX_RETRIES 0
  · intro s h0 h1 h2
    rw [call_groq_api_eq, call_groq_api_attempts_eq]
    cases e0 : outcomes 0 <;> rw [e0] at h0 <;> simp [ApiOutcome.isTransient] at h0 <;>
      cases e1 : outcomes 1 <;> rw [e1] at h1 <;> simp [ApiOutcome.isTransient] at h1 <;>
      cases e2 : outcomes 2 <;> rw [e2] at h2 <;> simp [transientErrorString] at h2 <;>
      simp [runAttempts, MAX_RETRIES, e0, e1, e2, h2]
  · intro e he
    rw [call_groq_api_eq, call_groq_api_attempts_eq]
    simp [runAttempts, MAX_RETRIES, he]
  · intro e h0 h1
    rw [call_groq_api_eq, call_groq_api_attempts_eq]
    cases e0 : outcomes 0 <;> rw [e0] at h0 <;> simp [ApiOutcome.isTransient] at h0 <;>
      simp [runAttempts, MAX_RETRIES, e0, h1]
  · intro e h0 h1 h2
    rw [call_groq_api_eq, call_groq_api_attempts_eq]
    simp [runAttempts, MAX_RETRIES, h0, h1, h2]

/-- C5 counterexample: when the API returns a well-formed 200 response with
empty content, `call_groq_api` returns the empty string — a non-`None`
result — yet `get_llm_response` does not record the exchange (the memory is
left untouched, not equal to the `add_exchange` result) and returns the
fallback message instead. -/
theorem C5_counterexample :
    call_groq_api (fun _ => ApiOutcome.ok "") = Except.ok ""
    ∧ (get_llm_response (fun _ => ApiOutcome.ok "") (ChatMemory.init MAX_MEMORY_SIZE) "hi").1
        = Except.ok "❌ Failed to get response from LLM."
    ∧ (get_llm_response (fun _ => ApiOutcome.ok "") (ChatMemory.init MAX_MEMORY_SIZE) "hi").2
        ≠ (ChatMemory.init MAX_MEMORY_SIZE).add_exchange "hi" "" := by
  refine ⟨rfl, rfl, ?_⟩
  decide

/-- C5 (amended): any non-empty string result of `call_groq_api` — in
particular every diagnostic failure string — is both returned to the caller
as the turn's reply and appended to conversation memory via `add_exchange`
exactly like a successful reply; an empty-string result is the one
exception. -/
theorem C5_amended_reply_recorded (outcomes : Nat → ApiOutcome) (mem : ChatMemory)
    (user_input r : String) (h : call_groq_api outcomes = Except.ok r) (hr : r ≠ "") :
    (get_llm_response outcomes mem user_input).1 = Except.ok r
    ∧ (get_llm_response outcomes mem user_input).2 = mem.add_exchange user_input r := by
  constructor <;> simp [get_llm_response, h, hr]

/-- C5 witness: the amended statement at a concrete successful call. -/
theorem C5_amended_reply_recorded_witness :
    (get_llm_response (fun _ => ApiOutcome.ok "hello") (ChatMemory.init MAX_MEMORY_SIZE) "hi").1
      = Except.ok "hello"
    ∧ (get_llm_response (fun _ => ApiOutcome.ok "hello") (ChatMemory.init MAX_MEMORY_SIZE) "hi").2
      = (ChatMemory.init MAX_MEMORY_SIZE).add_exchange "hi" "hello" :=
  C5_amended_reply_recorded (fun _ => ApiOutcome.ok "hello")
    (ChatMemory.init MAX_MEMORY_SIZE) "hi" "hello" rfl (by decide)

/-- C6: whenever the underlying translator call fails (raises),
`translate_text` returns the input text unchanged, so the turn still
completes with a reply string. -/
theorem C6_translate_identity_fallback (translator : String → String → String → Option String)
    (text target_lang : String) (reverse : Bool)
    (h : (if reverse then translator "en" target_lang text
          else translator target_lang "en" text) = none) :
    translate_text translator text target_lang reverse = text := by
  unfold translate_text
  rw [h]

/-- C6 witness: a failing translator at a concrete input. -/
theorem C6_translate_identity_fallback_witness :
    translate_text (fun _ _ _ => none) "hola" "es" false = "hola" :=
  C6_translate_identity_fallback (fun _ _ _ => none) "hola" "es" false rfl

/-- C7: `extract_text_from_pdf` is total; on success it returns the
concatenated page texts stripped of surrounding whitespace, and on any
internal failure it returns a text describing the failure inline instead of
propagating the exception. -/
theorem C7_extract_text_total (pdfplumber_open : List Nat → Except String (List (Option String)))
    (file_bytes : List Nat) :
    (∀ pages, pdfplumber_open file_bytes = Except.ok pages →
        extract_text_from_pdf pdfplumber_open file_bytes
          = (pages.foldl (fun text page => text ++ page.getD "") "").trim)
    ∧ (∀ e, pdfplumber_open file_bytes = Except.error e →
        extract_text_from_pdf pdfplumber_open file_bytes = "Error reading PDF: " ++ e) := by
  constructor
  · intro pages hp
    unfold extract_text_from_pdf
    rw [hp]
  · intro e he
    unfold extract_text_from_pdf
    rw [he]

/-- C8: `detect_language` returns the language code "en" whenever the
underlying detection call fails (raises); it is total, so it never raises
itself. -/
theorem C8_detect_language_default (langdetect : String → Option String) (text : String)
    (h : langdetect text = none) :
    detect_language langdetect text = "en" := by
  unfold detect_language
  rw [h]

/-- C8 witness: a failing detector at a concrete input. -/
theorem C8_detect_language_default_witness :
    detect_language (fun _ => none) "bonjour" = "en" :=
  C8_detect_language_default (fun _ => none) "bonjour" rfl

/-- C9 counterexample: both consequences of the claim fail on a concrete
input. First, `call_groq_api` can return the empty string, and then the
`response or ...` fallback in `get_llm_response` IS reached: the reply is
the fallback message and the turn is not recorded. Second, a wrong-shaped
200 body (an empty `choices` list) raises an `IndexError` that no `except`
clause catches, so a response-shape exception escapes `call_groq_api` and
propagates through `get_llm_response`. -/
theorem C9_counterexample :
    (get_llm_response (fun _ => ApiOutcome.ok "") (ChatMemory.init MAX_MEMORY_SIZE) "hello").1
      = Except.ok "❌ Failed to get response from LLM."
    ∧ (get_llm_response (fun _ => ApiOutcome.ok "") (ChatMemory.init MAX_MEMORY_SIZE) "hello").2
      = ChatMemory.init MAX_MEMORY_SIZE
    ∧ call_groq_api (fun _ => ApiOutcome.shapeError "list index out of range")
      = Except.error "list index out of range"
    ∧ (get_llm_response (fun _ => ApiOutcome.shapeError "list index out of range")
        (ChatMemory.init MAX_MEMORY_SIZE) "hello").1
      = Except.error "list index out of range" :=
  ⟨rfl, rfl, rfl, rfl⟩

/-- C9 (amended): `call_groq_api` never returns `None`, and timeout,
network, status and JSON-decode failures never escape it — whenever no
attempt hits a wrong-shaped 200 body, the call returns a string. But a
response-shape exception (uncaught `IndexError`/`TypeError`) DOES escape,
propagating through `get_llm_response` with nothing recorded; and the
`response or ...` fallback is reachable: a turn either propagates such an
exception, or returns the fallback with the memory untouched — exactly when
the call returned the empty string — or returns the call's non-empty result
and records it. -/
theorem C9_fallback_characterisation (outcomes : Nat → ApiOutcome) (mem : ChatMemory)
    (user_input : String) :
    ((∃ e, call_groq_api outcomes = Except.error e
        ∧ (get_llm_response outcomes mem user_input).1 = Except.error e
        ∧ (get_llm_response outcomes mem user_input).2 = mem)
      ∨ (call_groq_api outcomes = Except.ok ""
        ∧ (get_llm_response outcomes mem user_input).1
            = Except.ok "❌ Failed to get response from LLM."
        ∧ (get_llm_response outcomes mem user_input).2 = mem)
      ∨ (∃ r, call_groq_api outcomes = Except.ok r ∧ r ≠ ""
        ∧ (get_llm_response outcomes mem user_input).1 = Except.ok r
        ∧ (get_llm_response outcomes mem user_input).2 = mem.add_exchange user_input r))
    ∧ ((∀ i, i < MAX_RETRIES → ∀ e, outcomes i ≠ ApiOutcome.shapeError e) →
        ∃ s, call_groq_api outcomes = Except.ok s)
    ∧ (∀ e, outcomes 0 = ApiOutcome.shapeError e →
        call_groq_api outcomes = Except.error e
        ∧ (get_llm_response outcomes mem user_input).1 = Except.error e
        ∧ (get_llm_response outcomes mem user_input).2 = mem) := by
  refine ⟨?_, ?_, ?_⟩
  · cases hc : call_groq_api outcomes with
    | error e =>
      exact Or.inl ⟨e, rfl, by simp [get_llm_response, hc], by simp [get_llm_response, hc]⟩
    | ok r =>
      by_cases hr : r = ""
      · subst hr
        exact Or.inr (Or.inl ⟨rfl, by simp [get_llm_response, hc], by simp [get_llm_response, hc]⟩)
      · exact Or.inr (Or.inr ⟨r, rfl, hr, by simp [get_llm_response, hc, hr],
          by simp [get_llm_response, hc, hr]⟩)
  · intro h
    rw [call_groq_api_eq]
    exact runAttempts_ok_of_no_shape outcomes MAX_RETRIES 0 (fun i h1 h2 e => h i (by omega) e)
  · intro e he
    have hc : call_groq_api outcomes = Except.error e := by
      rw [call_groq_api_eq]
      simp [runAttempts, MAX_RETRIES, he]
    exact ⟨hc, by simp [get_llm_response, hc], by simp [get_llm_response, hc]⟩

/-- C10: `Scratchpad.add_note` with an empty or whitespace-only string (its
stripped form empty) leaves the notes unchanged; with any other string it
appends exactly the stripped form, increasing `get_note_count` by one; it
never removes a note (the old notes stay a prefix of the new), and
`clear_notes` empties the list. -/
theorem C10_add_note_spec (s : Scratchpad) (note : String) :
    (note.trim = "" → s.add_note note = s)
    ∧ (note.trim ≠ "" →
        (s.add_note note).notes = s.notes ++ [note.trim]
        ∧ (s.add_note note).get_note_count = s.get_note_count + 1)
    ∧ (∃ appended, (s.add_note note).notes = s.notes ++ appended)
    ∧ (s.clear_notes).notes = [] := by
  refine ⟨fun h => by simp [Scratchpad.add_note, h], fun h => ?_, ?_, rfl⟩
  · constructor <;> simp [Scratchpad.add_note, Scratchpad.get_note_count, h]
  · by_cases h : note.trim = ""
    · exact ⟨[], by simp [Scratchpad.add_note, h]⟩
    · exact ⟨[note.trim], by simp [Scratchpad.add_note, h]⟩

end NgoChatbot
